import Mathlib

/-!
Verification of the inp-msvc voltage-controller supervisor against its
natural-language specification.  The Python sources are shallowly embedded:
Python `int` becomes `Int`/`Nat`, Python `float` arithmetic is modelled over
`ℚ`, fallible code returns `Except PyErr`.
-/

namespace Msvc

/-- Python exceptions that the embedded code can raise. -/
inductive PyErr where
  | valueError (msg : String)
  | indexError
  | typeError (msg : String)
  | formatError (msg : String)
  | stopIteration
  deriving DecidableEq, Repr

instance {ε α : Type} [DecidableEq ε] [DecidableEq α] : DecidableEq (Except ε α)
  | .error e, .error f =>
    if h : e = f then .isTrue (by rw [h]) else .isFalse (fun c => h (Except.error.inj c))
  | .error _, .ok _ => .isFalse (fun c => Except.noConfusion c)
  | .ok _, .error _ => .isFalse (fun c => Except.noConfusion c)
  | .ok x, .ok y =>
    if h : x = y then .isTrue (by rw [h]) else .isFalse (fun c => h (Except.ok.inj c))

/-!
## Parameter cells (`DeviceParameter`)

`src/state.py` and `src/gui/worker.py` both define a class `DeviceParameter`
holding the desired value, the actual value and the number of pending writes
(`waiting`, a Python `int`, hence `Int` here).  The two copies agree on
`set_actual_dec_waiting` and `set_desired_inc_waiting` but their `update_value`
methods differ; the two versions are embedded separately below.
-/

structure DeviceParameter (T : Type) where
  desired : T
  actual : T
  waiting : Int
  deriving DecidableEq, Repr

/-- `DeviceParameter.__init__(desired)` with the default arguments:
`actual` defaults to `desired` and `waiting` to 0. -/
def DeviceParameter.fresh {T : Type} (d : T) : DeviceParameter T := ⟨d, d, 0⟩

/-- `set_actual_dec_waiting` (identical in both files). -/
def set_actual_dec_waiting {T : Type} (p : DeviceParameter T) (v : T) : DeviceParameter T :=
  { p with actual := v, waiting := p.waiting - 1 }

/-- `set_desired_inc_waiting` (identical in both files). -/
def set_desired_inc_waiting {T : Type} (p : DeviceParameter T) (v : T) : DeviceParameter T :=
  { p with desired := v, waiting := p.waiting + 1 }

namespace StatePy

/-- `DeviceParameter.update_value` from `src/state.py` (lines 33-38):
`actual := v`; the desired value is changed only when `waiting == 0`. -/
def update_value {T : Type} (p : DeviceParameter T) (v : T) : DeviceParameter T :=
  let p := { p with actual := v }
  if p.waiting = 0 then { p with desired := v } else p

end StatePy

namespace WorkerPy

/-- `DeviceParameter.update_value` from `src/gui/worker.py` (lines 27-32):
`actual := v`; the desired value is changed when `waiting > 0` — the opposite
condition of the `src/state.py` copy and of the docstring shared by both. -/
def update_value {T : Type} (p : DeviceParameter T) (v : T) : DeviceParameter T :=
  let p := { p with actual := v }
  if p.waiting > 0 then { p with desired := v } else p

end WorkerPy

/-!
## Sequences of write events (claim C2)

A parameter cell evolves under `set_desired_inc_waiting` (write start) and
`set_actual_dec_waiting` (write completion).
-/

inductive WriteEvent (T : Type) where
  | start (v : T)
  | complete (echo : T)
  deriving DecidableEq, Repr

def WriteEvent.isStart {T : Type} : WriteEvent T → Bool
  | .start _ => true
  | .complete _ => false

def WriteEvent.isComplete {T : Type} : WriteEvent T → Bool
  | .start _ => false
  | .complete _ => true

def stepWrite {T : Type} (p : DeviceParameter T) : WriteEvent T → DeviceParameter T
  | .start v => set_desired_inc_waiting p v
  | .complete v => set_actual_dec_waiting p v

def runWrites {T : Type} (p : DeviceParameter T) (es : List (WriteEvent T)) : DeviceParameter T :=
  es.foldl stepWrite p

def numStarts {T : Type} (es : List (WriteEvent T)) : Nat :=
  es.countP (·.isStart)

def numCompletes {T : Type} (es : List (WriteEvent T)) : Nat :=
  es.countP (·.isComplete)

/-- The value of the last `start` event of the sequence, if any. -/
def lastStart {T : Type} : List (WriteEvent T) → Option T
  | [] => none
  | e :: es =>
    match lastStart es with
    | some v => some v
    | none => match e with | .start v => some v | .complete _ => none

/-- The echo of the last `complete` event of the sequence, if any. -/
def lastComplete {T : Type} : List (WriteEvent T) → Option T
  | [] => none
  | e :: es =>
    match lastComplete es with
    | some v => some v
    | none => match e with | .start _ => none | .complete v => some v

/-!
## Codec (`src/device/command.py`)

The wire protocol is ASCII and lowercase-hexadecimal.  Strings are modelled by
`String`/`List Char`.
-/

/-- The lowercase hexadecimal digit for a value below 16, as produced by
Python `%x` formatting (codepoint 48 is `0`, codepoint 87 + 10 is `a`). -/
def hexDigitChar (n : Nat) : Char :=
  if n < 10 then Char.ofNat (48 + n) else Char.ofNat (87 + n)

/-- The value of one hexadecimal digit, as accepted by Python `int(ch, 16)`
for a single character: codepoints 48-57 are `0`-`9`, 97-102 are `a`-`f`,
65-70 are `A`-`F`. -/
def hexVal? (c : Char) : Option Nat :=
  if 48 ≤ c.toNat ∧ c.toNat ≤ 57 then some (c.toNat - 48)
  else if 97 ≤ c.toNat ∧ c.toNat ≤ 102 then some (c.toNat - 87)
  else if 65 ≤ c.toNat ∧ c.toNat ≤ 70 then some (c.toNat - 55)
  else none

inductive CommandType where
  | READ
  | WRITE
  deriving DecidableEq, Repr

structure Command where
  command_type : CommandType
  address : Nat
  sub_address : Nat
  data : Nat
  is_crc_ok : Bool
  deriving DecidableEq, Repr

structure CommandResponse where
  data : Nat
  is_crc_ok : Bool
  deriving DecidableEq, Repr

def RESPONSE_LENGTH : Nat := 6

/-- The digit values of a string of hexadecimal characters; `none` as soon as
one character is not a hexadecimal digit. -/
def hexVals? : List Char → Option (List Nat)
  | [] => some []
  | c :: cs =>
    match hexVal? c, hexVals? cs with
    | some d, some ds => some (d :: ds)
    | _, _ => none

/-- `get_crc` from `src/device/command.py`: the arithmetic sum of the
hexadecimal digit values of the string, reduced by `(s xor 0xF) and 0xF`.
`int(ch, 16)` raises `ValueError` on a non-hexadecimal character. -/
def get_crc (s : List Char) : Except PyErr Nat :=
  match hexVals? s with
  | none => .error (.valueError "invalid literal for int() with base 16")
  | some ds => .ok ((ds.sum ^^^ 0xf) &&& 0xf)

/-- Python `%02x` formatting, modelled for byte values; the protocol's
`address` and `sub_address` are bytes (for larger values Python prints more
digits, the model masks instead). -/
def hex2 (n : Nat) : List Char := [hexDigitChar (n / 16 % 16), hexDigitChar (n % 16)]

/-- Python `%04x` formatting, modelled for 16-bit values. -/
def hex4 (n : Nat) : List Char :=
  [hexDigitChar (n / 4096 % 16), hexDigitChar (n / 256 % 16),
   hexDigitChar (n / 16 % 16), hexDigitChar (n % 16)]

/-- `encode_command` from `src/device/command.py`. -/
def encode_command (c : Command) : String :=
  let cmd : List Char :=
    if c.command_type = CommandType.READ then
      'r' :: (hex2 c.address ++ hex2 c.sub_address)
    else
      'w' :: (hex2 c.address ++ hex2 c.sub_address ++ hex4 c.data)
  let crc : List Char :=
    if c.is_crc_ok then
      match get_crc cmd.tail with
      | .ok n => [hexDigitChar n]
      | .error _ => []
        -- unreachable: `cmd.tail` consists of hexadecimal digits by construction
    else ['0']
  ⟨cmd ++ crc ++ ['\n']⟩

/-- The value of a most-significant-first list of hexadecimal digit values,
as computed by Python `int(s, 16)`. -/
def hexNumber (ds : List Nat) : Nat := ds.foldl (fun a d => a * 16 + d) 0

/-- `decode_response` from `src/device/command.py`.  Note the source evaluates
`string[-1]` before checking the length, so the empty string raises
`IndexError` rather than the format `ValueError`. -/
def decode_response (s : String) : Except PyErr CommandResponse :=
  match s.data.getLast? with
  | none => .error .indexError
  | some last =>
    if last ≠ '\n' ∨ s.length ≠ RESPONSE_LENGTH then
      .error (.valueError "Invalid response format")
    else
      match hexVals? (s.data.take 4) with
      | none => .error (.valueError "invalid literal for int() with base 16")
      | some ds =>
        match get_crc (s.data.take 5) with
        | .error e => .error e
        | .ok crc => .ok ⟨hexNumber ds, crc = 0⟩

/-- The hexadecimal digit values of the payload of a command: `addr`+`sub` for
READ, `addr`+`sub`+`data` for WRITE. -/
def payload_digits (c : Command) : List Nat :=
  if c.command_type = CommandType.READ then
    [c.address / 16 % 16, c.address % 16, c.sub_address / 16 % 16, c.sub_address % 16]
  else
    [c.address / 16 % 16, c.address % 16, c.sub_address / 16 % 16, c.sub_address % 16,
     c.data / 4096 % 16, c.data / 256 % 16, c.data / 16 % 16, c.data % 16]

/-- The CRC nibble as the specification words it for claim C3: the XOR-sum of
the hexadecimal digit values, reduced by `(sum xor 0xF) and 0xF`.  This
definition follows the specification text and is compared against the source's
`get_crc`, which uses the arithmetic sum. -/
def xor_crc (ds : List Nat) : Nat := ((ds.foldl (· ^^^ ·) 0) ^^^ 0xf) &&& 0xf

/-- The CRC nibble actually computed by the source: arithmetic sum of the
hexadecimal digit values, reduced by `(sum xor 0xF) and 0xF`. -/
def sum_crc (ds : List Nat) : Nat := (ds.sum ^^^ 0xf) &&& 0xf

/-!
## Register bitfields (`src/device/registers.py`)
-/

structure CellCSR where
  channel_on_state : Bool
  error : Bool
  accumulated_error : Bool
  current_overload : Bool
  base_voltage_error : Bool
  hardware_failure_error : Bool
  ramp_up_active : Bool
  ramp_down_active : Bool
  standby : Bool
  io_protection : Bool
  deriving DecidableEq, Repr

/-- The controller status bits (named `ControllerCSR` in
`src/device/registers.py`, imported as `ControllerSR` by `src/state.py`). -/
structure ControllerSR where
  temperature_protection : Bool
  low_voltage_error : Bool
  base_voltage_error : Bool
  high_voltage_protection_active : Bool
  deriving DecidableEq, Repr

/-- The temperature sensor selector (`NTsens`: 0 → uP, 1 → board, 2 → power
supply). -/
inductive TemperatureSensor where
  | uP
  | board
  | power_supply
  deriving DecidableEq, Repr

/-!
## Device mirror state (`src/state.py`)
-/

namespace StatePy

/-- `CellSettings` from `src/state.py` (lines 129-136): the five writable cell
parameters plus `counter_number` and `auto_enable`; the generated dataclass
constructor takes all seven fields positionally. -/
structure CellSettings where
  enabled : Bool
  voltage_set : ℚ
  current_limit : ℚ
  ramp_up_speed : Int
  ramp_down_speed : Int
  counter_number : String
  auto_enable : Bool
  deriving DecidableEq, Repr

/-- `CellState` from `src/state.py`: parameters, readonly values, auxiliary
fields and session constants, in dataclass field order. -/
structure CellState where
  enabled : DeviceParameter Bool
  voltage_set : DeviceParameter ℚ
  current_limit : DeviceParameter ℚ
  ramp_up_speed : DeviceParameter Int
  ramp_down_speed : DeviceParameter Int
  voltage_measured : ℚ
  current_measured : ℚ
  csr : CellCSR
  cell_index : Int
  counter_number : String
  auto_enable : Bool
  voltage_range : ℚ × ℚ
  current_limit_range : ℚ × ℚ
  measured_voltage_range : ℚ × ℚ
  measured_current_range : ℚ × ℚ
  deriving DecidableEq, Repr

/-- `ControllerState` from `src/state.py`. -/
structure ControllerState where
  base_voltage_enabled : DeviceParameter Bool
  fan_off_temp : DeviceParameter Int
  fan_on_temp : DeviceParameter Int
  shutdown_temp : DeviceParameter Int
  temp_sensor : DeviceParameter TemperatureSensor
  status : ControllerSR
  processor_temp : Int
  board_temp : Int
  power_supply_temp : Int
  low_voltage : ℚ
  base_voltage : ℚ
  deriving DecidableEq, Repr

/-- `ControllerUpdates` from `src/state.py`: the freshly read plain values. -/
structure ControllerUpdates where
  base_voltage_enabled : Bool
  fan_off_temp : Int
  fan_on_temp : Int
  shutdown_temp : Int
  temp_sensor : TemperatureSensor
  status : ControllerSR
  processor_temp : Int
  board_temp : Int
  power_supply_temp : Int
  low_voltage : ℚ
  base_voltage : ℚ
  deriving DecidableEq, Repr

/-- `update_controller_state` from `src/state.py` (lines 310-321).  The source
calls `update_value` on `base_voltage_enabled`, `fan_off_temp`, `fan_on_temp`
and `temp_sensor` and then copies the readonly fields; there is no call for
`shutdown_temp`, although `read_controller_updates` reads the shutdown
temperature from the device (the sibling `update_cell_state` updates all five
cell parameters). -/
def update_controller_state (state : ControllerState) (values : ControllerUpdates) :
    ControllerState :=
  { state with
    base_voltage_enabled := update_value state.base_voltage_enabled values.base_voltage_enabled
    fan_off_temp := update_value state.fan_off_temp values.fan_off_temp
    fan_on_temp := update_value state.fan_on_temp values.fan_on_temp
    temp_sensor := update_value state.temp_sensor values.temp_sensor
    status := values.status
    processor_temp := values.processor_temp
    board_temp := values.board_temp
    power_supply_temp := values.power_supply_temp
    low_voltage := values.low_voltage
    base_voltage := values.base_voltage }

end StatePy

/-!
## Fault evaluator (`src/checks.py`)

`ErrorType` is an `IntEnum` (`ok=0 < good=1 < warning=2 < error=3 <
critical=4`); grades compare and combine with `max` as plain integers, so it
is embedded as `Nat` constants.  `check_settings` is a mutable global from
`src/settings.py` (defaults `max_voltage_difference=1`,
`max_voltage_when_off=10`, overridden by `src/config.py` at startup), hence a
parameter of the check functions here.
-/

def ErrorType.ok : Nat := 0

def ErrorType.good : Nat := 1

def ErrorType.warning : Nat := 2

def ErrorType.error : Nat := 3

def ErrorType.critical : Nat := 4

structure CheckSettings where
  max_voltage_difference : ℚ
  max_voltage_when_off : ℚ
  deriving DecidableEq, Repr

/-- The default `check_settings` value from `src/settings.py`. -/
def default_check_settings : CheckSettings := ⟨1, 10⟩

def is_in_range (v : ℚ) (r : ℚ × ℚ) : Prop := r.1 ≤ v ∧ v ≤ r.2

instance (v : ℚ) (r : ℚ × ℚ) : Decidable (is_in_range v r) :=
  inferInstanceAs (Decidable (_ ∧ _))

def check_actual_voltage_set (state : StatePy.CellState) : Nat :=
  if ¬ is_in_range state.voltage_set.actual state.voltage_range then ErrorType.critical
  else ErrorType.ok

def check_measured_voltage (cs : CheckSettings) (state : StatePy.CellState) : Nat :=
  let v_set := state.voltage_set.actual
  let v_mes := state.voltage_measured
  if ¬ is_in_range v_mes state.measured_voltage_range then ErrorType.critical
  else if state.enabled.actual ∧ |v_set - v_mes| ≥ cs.max_voltage_difference then ErrorType.error
  else if ¬ state.enabled.actual ∧ v_mes > cs.max_voltage_when_off then ErrorType.error
  else ErrorType.ok

def check_measured_current (state : StatePy.CellState) : Nat :=
  let i_lim := state.current_limit.actual
  let i_mes := state.current_measured
  if ¬ is_in_range i_mes state.measured_current_range then ErrorType.critical
  else if i_mes > i_lim then ErrorType.error
  else ErrorType.ok

def check_cell_status (state : StatePy.CellState) : Nat :=
  if state.csr.current_overload ∨ state.csr.base_voltage_error ∨
      state.csr.hardware_failure_error ∨ state.csr.standby ∨ state.csr.io_protection then
    ErrorType.error
  else ErrorType.ok

/-- `check_parameter`: Python `if state.waiting:` is integer truthiness, so
any nonzero waiting counter grades `warning`. -/
def check_parameter {T : Type} (state : DeviceParameter T) : Nat :=
  if state.waiting ≠ 0 then ErrorType.warning else ErrorType.ok

def good_if_output_enabled (state : StatePy.CellState) : Nat :=
  if state.enabled.actual then ErrorType.good else ErrorType.ok

def check_cell (cs : CheckSettings) (state : StatePy.CellState) : Nat :=
  max (check_actual_voltage_set state)
    (max (check_measured_voltage cs state)
      (max (check_measured_current state)
        (max (check_cell_status state)
          (max (check_parameter state.voltage_set)
            (max (check_parameter state.current_limit)
              (max (check_parameter state.enabled)
                (max (check_parameter state.ramp_up_speed)
                  (max (check_parameter state.ramp_down_speed)
                    (good_if_output_enabled state)))))))))

def check_controller (state : StatePy.ControllerState) : Nat :=
  max (check_parameter state.fan_off_temp)
    (max (check_parameter state.fan_on_temp)
      (check_parameter state.shutdown_temp))

/-!
## Unit conversion (`src/device/helpers.py`)

Python floats are modelled over `ℚ`; Python `round` is round-half-to-even.
-/

/-- Python `round` to an integer (banker's rounding: ties go to the even
integer), modelled on `ℚ`: with fractional part `r = q - ⌊q⌋`, round down when
`r < 1/2`, up when `r > 1/2`, and to the even neighbour at `r = 1/2`. -/
def pyround (q : ℚ) : Int :=
  if q - (⌊q⌋ : ℚ) < 1 / 2 then ⌊q⌋
  else if 1 / 2 < q - (⌊q⌋ : ℚ) then ⌊q⌋ + 1
  else if Even ⌊q⌋ then ⌊q⌋ else ⌊q⌋ + 1

/-- `code_to_float` from `src/device/helpers.py`. -/
def code_to_float (code : Int) (max_code : Int) (min_value max_value : ℚ) : Except PyErr ℚ :=
  if min_value ≥ max_value then
    .error (.valueError "min_value should be strictly less than max_value.")
  else if max_code ≤ 0 then
    .error (.valueError "max_code should be strictly greater than 0.")
  else
    .ok (min_value + (code : ℚ) / (max_code : ℚ) * (max_value - min_value))

/-- `float_to_code` from `src/device/helpers.py`. -/
def float_to_code (value : ℚ) (max_code : Int) (min_value max_value : ℚ) : Except PyErr Int :=
  if min_value ≥ max_value then
    .error (.valueError "min_value should be strictly less than max_value.")
  else if max_code ≤ 0 then
    .error (.valueError "max_code should be strictly greater than 0.")
  else
    .ok (pyround ((value - min_value) / (max_value - min_value) * (max_code : ℚ)))

/-!
## Worker (`src/gui/worker.py`)

The GUI worker has its own copies of the state dataclasses (without the
measured-value ranges) and of `CellSettings` (five fields only).  Submitting a
task to the single-threaded executor is modelled by recording a `Job`; a
Python exception in a method that has already mutated state is modelled by an
`Except` error carrying the state and jobs at the raise point.
-/

namespace WorkerPy

structure CellState where
  enabled : DeviceParameter Bool
  voltage_set : DeviceParameter ℚ
  current_limit : DeviceParameter ℚ
  ramp_up_speed : DeviceParameter Int
  ramp_down_speed : DeviceParameter Int
  voltage_measured : ℚ
  current_measured : ℚ
  csr : CellCSR
  cell_index : Int
  voltage_range : ℚ × ℚ
  current_limit_range : ℚ × ℚ
  deriving DecidableEq, Repr

/-- `CellSettings` from `src/gui/worker.py` (five fields). -/
structure CellSettings where
  enabled : Bool
  voltage : ℚ
  current_limit : ℚ
  ramp_up : Int
  ramp_down : Int
  deriving DecidableEq, Repr

/-- A task submitted to the worker's executor. -/
inductive Job where
  | setEnabled (cell_index : Int) (value : Bool)
  | applyCellSettings (cell_index : Int) (settings : CellSettings)
  deriving DecidableEq, Repr

/-- Python list subscription `xs[i]` (negative indices wrap; out of range
raises `IndexError`). -/
def pythonGet {α : Type} (xs : List α) (i : Int) : Except PyErr α :=
  let j := if i < 0 then i + xs.length else i
  if j < 0 then .error .indexError
  else
    match xs.get? j.toNat with
    | some x => .ok x
    | none => .error .indexError

/-- Python list item assignment `xs[i] = v`. -/
def pythonSet {α : Type} (xs : List α) (i : Int) (v : α) : Except PyErr (List α) :=
  let j := if i < 0 then i + xs.length else i
  if j < 0 then .error .indexError
  else if j < (xs.length : Int) then .ok (xs.set j.toNat v)
  else .error .indexError

/-- `Worker.get_cell_state`: raises `IndexError` unless `1 ≤ cell_index ≤
len(state)`, then returns `state[cell_index - 1]`. -/
def get_cell_state (state : List CellState) (cell_index : Int) : Except PyErr CellState :=
  if cell_index < 1 ∨ cell_index > (state.length : Int) then .error .indexError
  else
    match state.get? (cell_index - 1).toNat with
    | some s => .ok s
    | none => .error .indexError

/-- `check_voltage_value` from `src/gui/worker.py` (the error message text is
elided). -/
def check_voltage_value (state : CellState) (value : ℚ) : Except PyErr Unit :=
  if value < state.voltage_range.1 ∨ value > state.voltage_range.2 then
    .error (.valueError "Cannot set voltage: out of allowed range")
  else .ok ()

/-- `check_current_value` from `src/gui/worker.py`. -/
def check_current_value (state : CellState) (value : ℚ) : Except PyErr Unit :=
  if value < state.current_limit_range.1 ∨ value > state.current_limit_range.2 then
    .error (.valueError "Cannot set current limit: out of allowed range")
  else .ok ()

/-- `check_ramp_up_value` from `src/gui/worker.py`. -/
def check_ramp_up_value (_state : CellState) (value : Int) : Except PyErr Unit :=
  if value < 1 then .error (.valueError "Cannot set ramp up speed: out of allowed range")
  else .ok ()

/-- `check_ramp_down_value` from `src/gui/worker.py`. -/
def check_ramp_down_value (_state : CellState) (value : Int) : Except PyErr Unit :=
  if value < 1 then .error (.valueError "Cannot set ramp down speed: out of allowed range")
  else .ok ()

/-- The validation performed for one profile entry by
`Worker.apply_settings_to_cells` (lines 440-444): look the cell up and run the
four range checks in source order; the first exception propagates. -/
def validate_cell (state : List CellState) (p : Int × CellSettings) :
    Except PyErr CellState :=
  match get_cell_state state p.1 with
  | .error e => .error e
  | .ok cell =>
    match check_voltage_value cell p.2.voltage with
    | .error e => .error e
    | .ok _ =>
      match check_current_value cell p.2.current_limit with
      | .error e => .error e
      | .ok _ =>
        match check_ramp_up_value cell p.2.ramp_up with
        | .error e => .error e
        | .ok _ =>
          match check_ramp_down_value cell p.2.ramp_down with
          | .error e => .error e
          | .ok _ => .ok cell

/-- The first loop of `apply_settings_to_cells`: validate every entry and
fill the `new_values` array (`new_values[cell_index - 1] = settings`).  No
state is mutated here. -/
def validateLoop (state : List CellState) :
    List (Int × CellSettings) → List (Option CellSettings) →
      Except PyErr (List (Option CellSettings))
  | [], acc => .ok acc
  | p :: rest, acc =>
    match validate_cell state p with
    | .error e => .error e
    | .ok _ =>
      match pythonSet acc (p.1 - 1) (some p.2) with
      | .error e => .error e
      | .ok acc2 => validateLoop state rest acc2

/-- `Worker.set_enabled(cell_index, value)`: `get_cell_state` (range check),
then `_start_modification`, which increments the `enabled` parameter's
waiting counter, sets its desired value and submits a single-parameter write
task. -/
def set_enabled (state : List CellState) (cell_index : Int) (value : Bool) :
    Except PyErr (List CellState × Job) :=
  match get_cell_state state cell_index with
  | .error e => .error e
  | .ok _ =>
    match state.get? (cell_index - 1).toNat with
    | none => .error .indexError
    | some c =>
      .ok (state.set (cell_index - 1).toNat
            { c with enabled := set_desired_inc_waiting c.enabled value },
           Job.setEnabled cell_index value)

/-- The five `set_desired_inc_waiting` calls performed for a profile cell. -/
def setDesiredAll (c : CellState) (st : CellSettings) : CellState :=
  { c with
    enabled := set_desired_inc_waiting c.enabled st.enabled
    voltage_set := set_desired_inc_waiting c.voltage_set st.voltage
    current_limit := set_desired_inc_waiting c.current_limit st.current_limit
    ramp_up_speed := set_desired_inc_waiting c.ramp_up_speed st.ramp_up
    ramp_down_speed := set_desired_inc_waiting c.ramp_down_speed st.ramp_down }

/-- The second loop of `apply_settings_to_cells`, iterating
`zip(self._state, new_values)` over the live state list (index `i`).  Cells
with no profile entry get `set_enabled(cell.cell_index, False)`; cells with an
entry get all five desired values set and then `_start_cell_modification`
(which subscripts the device and state lists with `cell_index - 1` before
submitting the compound write task). -/
def mutateLoop : List CellState → Nat → List (Option CellSettings) → List Job →
    Except (PyErr × List CellState × List Job) (List CellState × List Job)
  | cur, _, [], jobs => .ok (cur, jobs.reverse)
  | cur, i, v :: rest, jobs =>
    match cur.get? i with
    | none => .ok (cur, jobs.reverse)
    | some cell =>
      match v with
      | none =>
        match set_enabled cur cell.cell_index false with
        | .error e => .error (e, cur, jobs.reverse)
        | .ok (cur2, job) => mutateLoop cur2 (i + 1) rest (job :: jobs)
      | some st =>
        let cur2 := cur.set i (setDesiredAll cell st)
        match pythonGet cur2 (cell.cell_index - 1) with
        | .error e => .error (e, cur2, jobs.reverse)
        | .ok _ => mutateLoop cur2 (i + 1) rest (Job.applyCellSettings cell.cell_index st :: jobs)

/-- `Worker.apply_settings_to_cells` (lines 426-457): the validation loop runs
to completion before any state is touched; only then does the mutation loop
set desired values and submit write tasks.  An error carries the state and
submitted jobs at the raise point. -/
def apply_settings_to_cells (state : List CellState) (values : List (Int × CellSettings)) :
    Except (PyErr × List CellState × List Job) (List CellState × List Job) :=
  match validateLoop state values (List.replicate state.length none) with
  | .error e => .error (e, state, [])
  | .ok newVals => mutateLoop state 0 newVals []

/-- The effect of the validation loop on the `new_values` array: the sequence
of assignments `new_values[cell_index - 1] = settings` (each entry's index is
already validated to be in range, so plain `List.set` is the effect of
`pythonSet` here). -/
def assignAll (acc : List (Option CellSettings)) :
    List (Int × CellSettings) → List (Option CellSettings)
  | [] => acc
  | p :: rest => assignAll (acc.set (p.1 - 1).toNat (some p.2)) rest

/-- The profile entry effective for 0-based cell position `i` after the
assignments of `values` on top of a default `b`. -/
def profileAtFrom (b : Option CellSettings) :
    List (Int × CellSettings) → Nat → Option CellSettings
  | [], _ => b
  | p :: rest, i => profileAtFrom (if p.1 = (i : Int) + 1 then some p.2 else b) rest i

/-- The profile entry effective for 0-based cell position `i`: the last entry
of `values` whose 1-based cell index is `i + 1`. -/
def profileAt (values : List (Int × CellSettings)) (i : Nat) : Option CellSettings :=
  profileAtFrom none values i

/-- What one pass of the mutation loop does to a cell: absent from the
profile → only the `enabled` parameter is set to desired `false`; present →
all five desired values are set. -/
def applyOne (c : CellState) : Option CellSettings → CellState
  | none => { c with enabled := set_desired_inc_waiting c.enabled false }
  | some st => setDesiredAll c st

/-- The task the mutation loop submits for a cell with 1-based index `ci`. -/
def jobFor (ci : Int) : Option CellSettings → Job
  | none => Job.setEnabled ci false
  | some st => Job.applyCellSettings ci st

end WorkerPy

/-!
## Profile CSV parsing (`src/files.py`)

The CSV input is modelled as the list of rows, each already split into
fields (the file's first line is the header; data row `k` is file line
`k + 1`, which is what `csv.reader.line_num` reports for rows without
embedded newlines).  Python `float` and `int` parsing is modelled for plain
decimal literals.
-/

/-- Whether every character of the list is a decimal digit (codepoints
48-57). -/
def allDigits (cs : List Char) : Bool :=
  cs.all (fun c => decide (48 ≤ c.toNat ∧ c.toNat ≤ 57))

/-- The value of a most-significant-first list of decimal digit characters. -/
def natOfDigits (cs : List Char) : Nat := cs.foldl (fun a c => a * 10 + (c.toNat - 48)) 0

/-- Python `int(s)`, modelled for plain decimal literals with an optional
sign. -/
def pyint? (s : String) : Option Int :=
  match s.data with
  | '-' :: rest => if rest ≠ [] ∧ allDigits rest then some (-(natOfDigits rest : Int)) else none
  | '+' :: rest => if rest ≠ [] ∧ allDigits rest then some ((natOfDigits rest : Int)) else none
  | l => if l ≠ [] ∧ allDigits l then some ((natOfDigits l : Int)) else none

def pyfloatUnsigned? (l : List Char) : Option ℚ :=
  let ip := l.takeWhile (· ≠ '.')
  match l.dropWhile (· ≠ '.') with
  | [] => if l ≠ [] ∧ allDigits l then some ((natOfDigits l : ℚ)) else none
  | _ :: fp =>
    if (ip ≠ [] ∨ fp ≠ []) ∧ allDigits ip ∧ allDigits fp then
      some ((natOfDigits ip : ℚ) + (natOfDigits fp : ℚ) / ((10 : ℚ) ^ fp.length))
    else none

/-- Python `float(s)`, modelled for plain decimal literals with an optional
sign and at most one decimal point. -/
def pyfloat? (s : String) : Option ℚ :=
  match s.data with
  | '-' :: rest => (pyfloatUnsigned? rest).map (fun q => -q)
  | '+' :: rest => pyfloatUnsigned? rest
  | l => pyfloatUnsigned? l

/-- A profile: the parsed cell settings keyed by device name and cell index
(later entries overwrite earlier ones), plus the source filename. -/
structure Profile where
  filename : String
  entries : List ((String × Int) × StatePy.CellSettings)
  deriving DecidableEq, Repr

def profile_header : List String :=
  ["device", "cell_index", "auto_enable", "voltage", "current_limit", "ramp_up", "ramp_down"]

/-- The constructor call at `src/files.py` line 49:
`CellSettings(False, float(voltage), float(cur_lim), int(ramp_up),
int(ramp_down), auto_enable.lower() == 'true')` passes six positional
arguments, but the dataclass `state.CellSettings` has seven fields
(`counter_number` was not supplied), so Python raises `TypeError` before
constructing anything. -/
def cellSettingsCall6 (_enabled : Bool) (_voltage _cur_lim : ℚ) (_ramp_up _ramp_down : Int)
    (_auto_enable : Bool) : Except PyErr StatePy.CellSettings :=
  .error (.typeError "__init__ missing 1 required positional argument: auto_enable")

/-- The body of the `try` block for one data row of `read_profile`:
tuple-unpack the row (`ValueError` if it does not have seven fields), parse
the numeric fields, build the `CellSettings` (which raises `TypeError`, see
`cellSettingsCall6`), parse the cell index, and key the entry. -/
def read_profile_row (row : List String) :
    Except PyErr ((String × Int) × StatePy.CellSettings) :=
  match row with
  | [device, cell_index_str, auto_enable, voltage, cur_lim, ramp_up, ramp_down] => do
    let v ← match pyfloat? voltage with
      | some v => Except.ok v
      | none => Except.error (.valueError "could not convert string to float")
    let cl ← match pyfloat? cur_lim with
      | some cl => Except.ok cl
      | none => Except.error (.valueError "could not convert string to float")
    let ru ← match pyint? ramp_up with
      | some ru => Except.ok ru
      | none => Except.error (.valueError "invalid literal for int() with base 10")
    let rd ← match pyint? ramp_down with
      | some rd => Except.ok rd
      | none => Except.error (.valueError "invalid literal for int() with base 10")
    let settings ← cellSettingsCall6 false v cl ru rd (auto_enable.toLower = "true")
    let ci ← match pyint? cell_index_str with
      | some ci => Except.ok ci
      | none => Except.error (.valueError "invalid literal for int() with base 10")
    pure ((device, ci), settings)
  | _ => .error (.valueError "not enough values to unpack")

/-- The row loop of `read_profile`: a `ValueError` from a row is re-raised as
`FormatError` carrying `reader.line_num`; any other exception (in particular
the `TypeError` from the settings constructor) escapes the handler. -/
def read_profile_loop :
    List (List String) → Nat → List ((String × Int) × StatePy.CellSettings) →
      Except PyErr (List ((String × Int) × StatePy.CellSettings))
  | [], _, acc => .ok acc.reverse
  | row :: rest, line_num, acc =>
    match read_profile_row row with
    | .ok entry => read_profile_loop rest (line_num + 1) (entry :: acc)
    | .error (.valueError msg) =>
      .error (.formatError ("Wrong row format at line " ++ toString line_num ++ ": " ++ msg))
    | .error e => .error e

/-- `read_profile` from `src/files.py` (lines 38-55), over pre-split CSV
rows.  An empty file raises `StopIteration` from `next(reader)`; a header
mismatch raises `FormatError` (whose message does not carry a line number). -/
def read_profile (filename : String) (rows : List (List String)) : Except PyErr Profile :=
  match rows with
  | [] => .error .stopIteration
  | header :: rest =>
    if header ≠ profile_header then
      .error (.formatError "Wrong csv file header")
    else
      match read_profile_loop rest 2 [] with
      | .error e => .error e
      | .ok entries => .ok ⟨filename, entries⟩

/-!
## Concrete scenario fixtures

Concrete mirror states used by the scenario claims (S3/S4 of the
specification).
-/

/-- The S4 scenario cell: enabled, `v_set = 100` acknowledged, `v_mes = 98.5`,
ranges `[0,400]` (set voltage), `[0,100]` (current limit), `[0,1000]`
(measured voltage, `Umesmax = 1000`), `[0,200]` (measured current); no status
bits, no pending writes. -/
def s4_cell : StatePy.CellState :=
  ⟨⟨true, true, 0⟩, ⟨100, 100, 0⟩, ⟨10, 10, 0⟩, ⟨1, 1, 0⟩, ⟨1, 1, 0⟩,
    197 / 2, 1, ⟨false, false, false, false, false, false, false, false, false, false⟩,
    1, "", false, (0, 400), (0, 100), (0, 1000), (0, 200)⟩

/-- The S4 cell with `csr.current_overload` additionally set. -/
def s4_cell_overload : StatePy.CellState :=
  { s4_cell with csr := { s4_cell.csr with current_overload := true } }

/-- The S4 overloaded cell with `v_mes = 9999`, outside `[0, 1000]`. -/
def s4_cell_out_of_range : StatePy.CellState :=
  { s4_cell_overload with voltage_measured := 9999 }

/-- A controller mirror with no pending writes, `shutdown_temp = (10,10,0)`. -/
def c7_state : StatePy.ControllerState :=
  ⟨⟨false, false, 0⟩, ⟨1, 1, 0⟩, ⟨2, 2, 0⟩, ⟨10, 10, 0⟩,
    ⟨TemperatureSensor.uP, TemperatureSensor.uP, 0⟩,
    ⟨false, false, false, false⟩, 0, 0, 0, 0, 0⟩

/-- A polling result that reports fresh values for all five controller
parameters, in particular `shutdown_temp = 20`. -/
def c7_updates : StatePy.ControllerUpdates :=
  ⟨true, 21, 22, 20, TemperatureSensor.board, ⟨false, false, false, false⟩, 0, 0, 0, 0, 0⟩

/-- A controller mirror with every status bit set and no pending writes. -/
def c8_state : StatePy.ControllerState :=
  ⟨⟨true, true, 0⟩, ⟨10, 10, 0⟩, ⟨20, 20, 0⟩, ⟨30, 30, 0⟩,
    ⟨TemperatureSensor.uP, TemperatureSensor.uP, 0⟩,
    ⟨true, true, true, true⟩, 0, 0, 0, 0, 0⟩

/-- An idle worker cell mirror with index 1, voltage range `[0, 400]` and
current limit range `[0, 100]`. -/
def c6_cell1 : WorkerPy.CellState :=
  ⟨⟨false, false, 0⟩, ⟨0, 0, 0⟩, ⟨0, 0, 0⟩, ⟨1, 1, 0⟩, ⟨1, 1, 0⟩,
    0, 0, ⟨false, false, false, false, false, false, false, false, false, false⟩,
    1, (0, 400), (0, 100)⟩

/-- The same worker cell mirror with index 2. -/
def c6_cell2 : WorkerPy.CellState := { c6_cell1 with cell_index := 2 }

/-- Profile settings for the C6 witness: enabled, 50 V, 10 uA, ramps 1. -/
def c6_settings : WorkerPy.CellSettings := ⟨true, 50, 10, 1, 1⟩

end Msvc

/-!
# Theorems
-/

namespace Msvc

theorem runWrites_waiting {T : Type} (es : List (WriteEvent T)) (p : DeviceParameter T) :
    (runWrites p es).waiting = p.waiting + numStarts es - numCompletes es := by
  induction es generalizing p with
  | nil => simp [runWrites, numStarts, numCompletes]
  | cons e es ih =>
    cases e with
    | start v =>
      simp only [runWrites, List.foldl_cons] at *
      rw [ih]
      simp [stepWrite, set_desired_inc_waiting, numStarts, numCompletes, WriteEvent.isStart,
        WriteEvent.isComplete, List.countP_cons]
      ring
    | complete v =>
      simp only [runWrites, List.foldl_cons] at *
      rw [ih]
      simp [stepWrite, set_actual_dec_waiting, numStarts, numCompletes, WriteEvent.isStart,
        WriteEvent.isComplete, List.countP_cons]
      ring

theorem runWrites_actual {T : Type} (es : List (WriteEvent T)) (p : DeviceParameter T) :
    (runWrites p es).actual = (lastComplete es).getD p.actual := by
  induction es generalizing p with
  | nil => simp [runWrites, lastComplete]
  | cons e es ih =>
    simp only [runWrites, List.foldl_cons] at *
    rw [ih]
    cases e with
    | start v =>
      simp only [lastStart, lastComplete, stepWrite, set_desired_inc_waiting]
      cases lastComplete es <;> rfl
    | complete v =>
      simp only [lastComplete, stepWrite, set_actual_dec_waiting]
      cases lastComplete es <;> rfl

theorem runWrites_desired {T : Type} (es : List (WriteEvent T)) (p : DeviceParameter T) :
    (runWrites p es).desired = (lastStart es).getD p.desired := by
  induction es generalizing p with
  | nil => simp [runWrites, lastStart]
  | cons e es ih =>
    simp only [runWrites, List.foldl_cons] at *
    rw [ih]
    cases e with
    | start v =>
      simp only [lastStart, stepWrite, set_desired_inc_waiting]
      cases lastStart es <;> rfl
    | complete v =>
      simp only [lastStart, stepWrite, set_actual_dec_waiting]
      cases lastStart es <;> rfl

theorem lastComplete_eq_none_iff {T : Type} (es : List (WriteEvent T)) :
    lastComplete es = none ↔ numCompletes es = 0 := by
  induction es with
  | nil => simp [lastComplete, numCompletes]
  | cons e es ih =>
    cases e with
    | start v =>
      simp only [lastComplete, numCompletes, List.countP_cons, WriteEvent.isComplete] at *
      cases h : lastComplete es <;> simp_all
    | complete v =>
      simp only [lastComplete, numCompletes, List.countP_cons, WriteEvent.isComplete] at *
      cases h : lastComplete es <;> simp_all

theorem lastStart_eq_none_iff {T : Type} (es : List (WriteEvent T)) :
    lastStart es = none ↔ numStarts es = 0 := by
  induction es with
  | nil => simp [lastStart, numStarts]
  | cons e es ih =>
    cases e with
    | start v =>
      simp only [lastStart, numStarts, List.countP_cons, WriteEvent.isStart] at *
      cases h : lastStart es <;> simp_all
    | complete v =>
      simp only [lastStart, numStarts, List.countP_cons, WriteEvent.isStart] at *
      cases h : lastStart es <;> simp_all

theorem hexVal_hexDigitChar {d : Nat} (h : d < 16) : hexVal? (hexDigitChar d) = some d := by
  have : ∀ e < 16, hexVal? (hexDigitChar e) = some e := by decide
  exact this d h

theorem hexVals_map (ds : List Nat) (h : ∀ d ∈ ds, d < 16) :
    hexVals? (ds.map hexDigitChar) = some ds := by
  induction ds with
  | nil => rfl
  | cons d ds ih =>
    have hd := hexVal_hexDigitChar (h d (by simp))
    simp [hexVals?, hd, ih (fun e he => h e (by simp [he]))]

theorem get_crc_map (ds : List Nat) (h : ∀ d ∈ ds, d < 16) :
    get_crc (ds.map hexDigitChar) = .ok (sum_crc ds) := by
  unfold get_crc
  rw [hexVals_map ds h]
  rfl

theorem pyround_intCast (n : Int) : pyround (n : ℚ) = n := by
  unfold pyround
  rw [Int.floor_intCast]
  norm_num

theorem abs_pyround_sub_le (q : ℚ) : |((pyround q : Int) : ℚ) - q| ≤ 1 / 2 := by
  have h0 : 0 ≤ q - (⌊q⌋ : ℚ) := by
    have := Int.floor_le q
    linarith
  have h1 : q - (⌊q⌋ : ℚ) < 1 := by
    have := Int.lt_floor_add_one q
    linarith
  unfold pyround
  split_ifs with ha hb hc
  · rw [abs_sub_comm, abs_of_nonneg (by linarith)]
    linarith
  · push_cast
    rw [abs_of_nonneg (by linarith)]
    linarith
  · have hh : q - (⌊q⌋ : ℚ) = 1 / 2 := by linarith
    rw [abs_sub_comm, abs_of_nonneg (by linarith)]
    linarith
  · have hh : q - (⌊q⌋ : ℚ) = 1 / 2 := by linarith
    push_cast
    rw [abs_of_nonneg (by linarith)]
    linarith

/-- C1: poll update rule.  The spec (scenario S3) requires that a poll of 2
while the cell is `(desired=5, actual=0, pending=1)` yields `(5, 2, 1)`: with a
pending write the desired value must be left unchanged.  The
`src/state.py` copy of `update_value` obeys this rule, but the
`src/gui/worker.py` copy — the one used by the running `Worker` — changes
`desired` exactly when `waiting > 0`, contradicting the docstring both copies
share, and yields `(2, 2, 1)` on the same input. -/
theorem C1_poll_update_polarity :
    StatePy.update_value (⟨5, 0, 1⟩ : DeviceParameter Int) 2 = ⟨5, 2, 1⟩ ∧
    WorkerPy.update_value (⟨5, 0, 1⟩ : DeviceParameter Int) 2 = ⟨2, 2, 1⟩ ∧
    (WorkerPy.update_value (⟨5, 0, 1⟩ : DeviceParameter Int) 2).desired ≠ 5 := by
  decide

/-- C2: parameter cell sequence law.  Starting from a fresh cell, after any
nonempty sequence of `write_start` (`set_desired_inc_waiting`) and
`write_complete` (`set_actual_dec_waiting`) events in which every prefix has at
least as many starts as completes and the totals agree, the waiting counter is
back to 0, `actual` equals the echo of the last completion, `desired` equals
the value of the last start, and the waiting counter is nonnegative after every
step. -/
theorem C2_parameter_cell_sequence_law {T : Type} (d : T) (es : List (WriteEvent T))
    (hne : es ≠ [])
    (hpre : ∀ n ≤ es.length, numCompletes (es.take n) ≤ numStarts (es.take n))
    (heq : numStarts es = numCompletes es) :
    ∃ a v, lastComplete es = some a ∧ lastStart es = some v ∧
      (runWrites (DeviceParameter.fresh d) es).waiting = 0 ∧
      (runWrites (DeviceParameter.fresh d) es).actual = a ∧
      (runWrites (DeviceParameter.fresh d) es).desired = v ∧
      ∀ n, 0 ≤ (runWrites (DeviceParameter.fresh d) (es.take n)).waiting := by
  have hstarts : 1 ≤ numStarts es := by
    cases es with
    | nil => exact absurd rfl hne
    | cons e rest =>
      have h1 := hpre 1 (by simp)
      cases e with
      | start v =>
        simp [numStarts, List.countP_cons, WriteEvent.isStart]
      | complete v =>
        simp [numStarts, numCompletes, List.countP, List.countP.go,
          WriteEvent.isStart, WriteEvent.isComplete] at h1
  have hcomp : 1 ≤ numCompletes es := heq ▸ hstarts
  obtain ⟨a, ha⟩ : ∃ a, lastComplete es = some a := by
    cases h : lastComplete es with
    | none => rw [lastComplete_eq_none_iff] at h; omega
    | some a => exact ⟨a, rfl⟩
  obtain ⟨v, hv⟩ : ∃ v, lastStart es = some v := by
    cases h : lastStart es with
    | none => rw [lastStart_eq_none_iff] at h; omega
    | some v => exact ⟨v, rfl⟩
  refine ⟨a, v, ha, hv, ?_, ?_, ?_, ?_⟩
  · rw [runWrites_waiting]
    simp [DeviceParameter.fresh]
    omega
  · rw [runWrites_actual, ha]; rfl
  · rw [runWrites_desired, hv]; rfl
  · intro n
    rcases le_or_lt n es.length with h | h
    · have := hpre n h
      rw [runWrites_waiting]
      simp [DeviceParameter.fresh]
      omega
    · rw [List.take_of_length_le h.le, runWrites_waiting]
      simp [DeviceParameter.fresh]
      omega

/-- Witness for C2 at the concrete sequence `[start 5, complete 7]`. -/
theorem C2_parameter_cell_sequence_law_witness :
    ∃ a v, lastComplete [WriteEvent.start (5 : Int), WriteEvent.complete 7] = some a ∧
      lastStart [WriteEvent.start (5 : Int), WriteEvent.complete 7] = some v ∧
      (runWrites (DeviceParameter.fresh 0)
        [WriteEvent.start (5 : Int), WriteEvent.complete 7]).waiting = 0 ∧
      (runWrites (DeviceParameter.fresh 0)
        [WriteEvent.start (5 : Int), WriteEvent.complete 7]).actual = a ∧
      (runWrites (DeviceParameter.fresh 0)
        [WriteEvent.start (5 : Int), WriteEvent.complete 7]).desired = v ∧
      ∀ n, 0 ≤ (runWrites (DeviceParameter.fresh 0)
        (([WriteEvent.start (5 : Int), WriteEvent.complete 7]).take n)).waiting :=
  C2_parameter_cell_sequence_law 0 _ (by decide) (by decide) (by decide)

/-- C3 counterexample: the claim computes the CRC nibble from the XOR-sum of
the payload digits.  For the READ request with `addr=0x01`, `sub=0x07` the
payload digits are `0,1,0,7`; the encoder appends nibble `7` (arithmetic sum
8, `(8 xor 15) and 15 = 7`), while the XOR-sum formula yields
`((0^^^1^^^0^^^7) xor 15) and 15 = 9`. -/
theorem C3_xor_crc_counterexample :
    encode_command ⟨CommandType.READ, 1, 7, 0, true⟩ = "r01077\n" ∧
    payload_digits ⟨CommandType.READ, 1, 7, 0, true⟩ = [0, 1, 0, 7] ∧
    xor_crc [0, 1, 0, 7] = 9 ∧
    hexVal? '7' = some 7 ∧
    ¬ hexDigitChar (xor_crc [0, 1, 0, 7]) = '7' := by
  decide

/-- C3 amended: for every encoded request with CRC checking enabled, the
appended CRC nibble is the ARITHMETIC sum of every hexadecimal digit of the
payload (`addr`+`sub` for READ, `addr`+`sub`+`data` for WRITE) reduced by
`(sum xor 0xF) and 0xF`; when CRC checking is disabled the sentinel nibble 0
(character `'0'`) is sent instead. -/
theorem C3_crc_nibble_is_reduced_digit_sum (c : Command) :
    (encode_command c).data =
      (if c.command_type = CommandType.READ then 'r' else 'w') ::
        ((payload_digits c).map hexDigitChar ++
          [hexDigitChar (if c.is_crc_ok then sum_crc (payload_digits c) else 0)] ++ ['\n']) := by
  obtain ⟨ct, a, sb, dt, crc⟩ := c
  have h4 : ∀ d ∈ [a / 16 % 16, a % 16, sb / 16 % 16, sb % 16], d < 16 := by
    intro d hd
    simp at hd
    rcases hd with h | h | h | h <;> omega
  have h8 : ∀ d ∈ [a / 16 % 16, a % 16, sb / 16 % 16, sb % 16,
      dt / 4096 % 16, dt / 256 % 16, dt / 16 % 16, dt % 16], d < 16 := by
    intro d hd
    simp at hd
    rcases hd with h | h | h | h | h | h | h | h <;> omega
  have g4 := get_crc_map [a / 16 % 16, a % 16, sb / 16 % 16, sb % 16] h4
  have g8 := get_crc_map [a / 16 % 16, a % 16, sb / 16 % 16, sb % 16,
    dt / 4096 % 16, dt / 256 % 16, dt / 16 % 16, dt % 16] h8
  simp only [List.map_cons, List.map_nil] at g4 g8
  cases ct <;> cases crc <;>
    simp [encode_command, payload_digits, hex2, hex4, g4, g8] <;> decide

/-- C10: `decode_response` raises for every input that is not exactly 6
characters ending in a newline; for nonempty malformed input the exception is
`ValueError` with message "Invalid response format", but for the empty string
`string[-1]` is evaluated before the length check and raises `IndexError`. -/
theorem C10_decode_response_malformed (s : String)
    (h : ¬ (s.length = RESPONSE_LENGTH ∧ s.data.getLast? = some '\n')) :
    ∃ e, decode_response s = .error e ∧
      (s = "" → e = PyErr.indexError) ∧
      (s ≠ "" → e = PyErr.valueError "Invalid response format") := by
  obtain ⟨l⟩ := s
  cases l with
  | nil =>
    exact ⟨.indexError, rfl, fun _ => rfl, fun hne => absurd rfl hne⟩
  | cons c cs =>
    cases hx : (c :: cs).getLast? with
    | none => simp at hx
    | some x =>
      have hcond : x ≠ '\n' ∨ (String.mk (c :: cs)).length ≠ RESPONSE_LENGTH := by
        by_contra hc
        push_neg at hc
        exact h ⟨hc.2, by rw [show (String.mk (c :: cs)).data = c :: cs from rfl, hx, hc.1]⟩
      refine ⟨.valueError "Invalid response format", ?_, ?_, fun _ => rfl⟩
      · unfold decode_response
        rw [show (String.mk (c :: cs)).data = c :: cs from rfl, hx]
        exact if_pos hcond
      · intro habs
        exact absurd (congrArg String.data habs) (by simp)

/-- C4: a cell's grade is the maximum over its individual checks (each check
is a lower bound of `check_cell`), and on the S4 inputs with
`max_voltage_difference = 1`: the enabled cell with `v_set=100`, `v_mes=98.5`
grades `error`; setting `csr.current_overload` keeps the grade at `error`;
additionally moving `v_mes` to 9999, outside `[0, 1000]`, grades `critical`. -/
theorem C4_fault_escalation :
    (∀ (cs : CheckSettings) (st : StatePy.CellState),
      check_actual_voltage_set st ≤ check_cell cs st ∧
      check_measured_voltage cs st ≤ check_cell cs st ∧
      check_measured_current st ≤ check_cell cs st ∧
      check_cell_status st ≤ check_cell cs st ∧
      check_parameter st.voltage_set ≤ check_cell cs st ∧
      check_parameter st.current_limit ≤ check_cell cs st ∧
      check_parameter st.enabled ≤ check_cell cs st ∧
      check_parameter st.ramp_up_speed ≤ check_cell cs st ∧
      check_parameter st.ramp_down_speed ≤ check_cell cs st ∧
      good_if_output_enabled st ≤ check_cell cs st) ∧
    check_cell default_check_settings s4_cell = ErrorType.error ∧
    check_cell default_check_settings s4_cell_overload = ErrorType.error ∧
    check_cell default_check_settings s4_cell_out_of_range = ErrorType.critical := by
  refine ⟨fun cs st => ?_, ?_, ?_, ?_⟩
  · simp only [check_cell, le_max_iff, le_refl, true_or, or_true, and_self]
  all_goals
    norm_num [check_cell, check_actual_voltage_set, check_measured_voltage,
      check_measured_current, check_cell_status, check_parameter, good_if_output_enabled,
      is_in_range, s4_cell, s4_cell_overload, s4_cell_out_of_range, default_check_settings,
      abs_of_nonneg, ErrorType.ok, ErrorType.good, ErrorType.warning, ErrorType.error,
      ErrorType.critical]

/-- C5: unit conversion inverse.  For every integer code `0 ≤ c ≤ max_code`
with `max_code > 0` and `min_value < max_value`,
`float_to_code (code_to_float c) = c`; and for every value `v` in
`[min_value, max_value]`, converting to a code and back lands within
`(max_value − min_value) / max_code` of `v`. -/
theorem C5_unit_conversion_inverse (max_code c : Int) (mn mx : ℚ)
    (hc0 : 0 ≤ c) (hcm : c ≤ max_code) (hmc : 0 < max_code) (hr : mn < mx) :
    ((code_to_float c max_code mn mx).bind fun v => float_to_code v max_code mn mx) =
      .ok c ∧
    ∀ v : ℚ, mn ≤ v → v ≤ mx →
      ∃ w, ((float_to_code v max_code mn mx).bind fun k => code_to_float k max_code mn mx) =
        .ok w ∧ |w - v| ≤ (mx - mn) / max_code := by
  have hne : mx - mn ≠ 0 := sub_ne_zero.mpr (ne_of_gt hr)
  have hmcq : (0 : ℚ) < (max_code : ℚ) := by exact_mod_cast hmc
  have hmcq' : (max_code : ℚ) ≠ 0 := ne_of_gt hmcq
  have hA : ∀ k : Int, code_to_float k max_code mn mx =
      .ok (mn + (k : ℚ) / (max_code : ℚ) * (mx - mn)) := by
    intro k
    unfold code_to_float
    rw [if_neg (not_le.mpr hr), if_neg (not_le.mpr hmc)]
  have hB : ∀ x : ℚ, float_to_code x max_code mn mx =
      .ok (pyround ((x - mn) / (mx - mn) * (max_code : ℚ))) := by
    intro x
    unfold float_to_code
    rw [if_neg (not_le.mpr hr), if_neg (not_le.mpr hmc)]
  constructor
  · rw [hA c]
    show float_to_code _ _ _ _ = _
    rw [hB]
    have harg : (mn + (c : ℚ) / (max_code : ℚ) * (mx - mn) - mn) / (mx - mn) *
        (max_code : ℚ) = (c : ℚ) := by
      field_simp
      ring
    rw [harg, pyround_intCast]
  · intro v hv1 hv2
    refine ⟨mn + ((pyround ((v - mn) / (mx - mn) * (max_code : ℚ)) : Int) : ℚ) /
      (max_code : ℚ) * (mx - mn), ?_, ?_⟩
    · rw [hB v]
      show code_to_float _ _ _ _ = _
      rw [hA]
    · have habs := abs_pyround_sub_le ((v - mn) / (mx - mn) * (max_code : ℚ))
      have hpos : (0 : ℚ) < (mx - mn) / (max_code : ℚ) :=
        div_pos (by linarith) hmcq
      have key : mn + ((pyround ((v - mn) / (mx - mn) * (max_code : ℚ)) : Int) : ℚ) /
          (max_code : ℚ) * (mx - mn) - v =
          (((pyround ((v - mn) / (mx - mn) * (max_code : ℚ)) : Int) : ℚ) -
            (v - mn) / (mx - mn) * (max_code : ℚ)) * ((mx - mn) / (max_code : ℚ)) := by
        field_simp
        ring
      rw [key, abs_mul, abs_of_pos hpos]
      have hmul := mul_le_mul_of_nonneg_right habs (le_of_lt hpos)
      nlinarith [hpos]

/-- Witness for C5 at `max_code = 4095`, `c = 2048`, range `[0, 100]` (the S2
scenario). -/
theorem C5_unit_conversion_inverse_witness :
    ((code_to_float 2048 4095 0 100).bind fun v => float_to_code v 4095 0 100) =
      .ok 2048 ∧
    ∀ v : ℚ, 0 ≤ v → v ≤ 100 →
      ∃ w, ((float_to_code v 4095 0 100).bind fun k => code_to_float k 4095 0 100) =
        .ok w ∧ |w - v| ≤ (100 - 0) / 4095 := by
  have h := C5_unit_conversion_inverse 4095 2048 0 100 (by norm_num) (by norm_num)
    (by norm_num) (by norm_num)
  simpa using h

/-- C7: after a polling pass the freshly read shutdown temperature is
discarded: `update_controller_state` applies the `update_value` rule to four
of the five controller parameter cells but not to `shutdown_temp`.  At the
concrete input where every waiting counter is 0 and the device reports
`shutdown_temp = 20`, the mirror keeps `(10, 10, 0)` although the other four
parameters all take their fresh values. -/
theorem C7_shutdown_temp_not_updated :
    (StatePy.update_controller_state c7_state c7_updates).shutdown_temp = ⟨10, 10, 0⟩ ∧
    (StatePy.update_controller_state c7_state c7_updates).shutdown_temp.actual ≠
      c7_updates.shutdown_temp ∧
    (StatePy.update_controller_state c7_state c7_updates).base_voltage_enabled =
      ⟨true, true, 0⟩ ∧
    (StatePy.update_controller_state c7_state c7_updates).fan_off_temp = ⟨21, 21, 0⟩ ∧
    (StatePy.update_controller_state c7_state c7_updates).fan_on_temp = ⟨22, 22, 0⟩ ∧
    (StatePy.update_controller_state c7_state c7_updates).temp_sensor =
      ⟨TemperatureSensor.board, TemperatureSensor.board, 0⟩ := by
  decide

/-- C8 counterexample: a controller mirror with every controller status bit
set but no pending parameter writes grades `ok` — the grade is not at least
`error` as the claim requires. -/
theorem C8_controller_status_counterexample :
    check_controller c8_state = ErrorType.ok ∧
    ¬ ErrorType.error ≤ check_controller c8_state := by
  decide

/-- C8 amended: `check_controller` depends only on the pending-write counters
of `fan_off_temp`, `fan_on_temp` and `shutdown_temp`: it grades `warning` when
any of the three is nonzero and `ok` otherwise, never reaching `error`; the
controller status bits do not influence the grade at all. -/
theorem C8_controller_grade_ignores_status (st : StatePy.ControllerState) :
    check_controller st =
      (if st.fan_off_temp.waiting ≠ 0 ∨ st.fan_on_temp.waiting ≠ 0 ∨
          st.shutdown_temp.waiting ≠ 0 then ErrorType.warning else ErrorType.ok) ∧
    check_controller st ≤ ErrorType.warning := by
  by_cases h1 : st.fan_off_temp.waiting = 0 <;>
    by_cases h2 : st.fan_on_temp.waiting = 0 <;>
      by_cases h3 : st.shutdown_temp.waiting = 0 <;>
        simp [check_controller, check_parameter, ErrorType.warning, ErrorType.ok, h1, h2, h3]

/-- C9: profile parsing.  On a file with the correct header and the
well-formed row `dev,1,true,50.0,10.0,1,1` the claim expects a `CellSettings`
with `counter_number = ""` keyed by `("dev", 1)`; the source instead passes
six positional arguments to the seven-field dataclass constructor, so the row
raises `TypeError`, which the `except ValueError` handler does not catch and
`read_profile` propagates.  The remaining conjuncts show the row itself parses
cleanly. -/
theorem C9_read_profile_typeerror :
    read_profile "profile.csv"
        [profile_header, ["dev", "1", "true", "50.0", "10.0", "1", "1"]] =
      .error (.typeError "__init__ missing 1 required positional argument: auto_enable") ∧
    (pyfloat? "50.0").isSome = true ∧ (pyfloat? "10.0").isSome = true ∧
    pyint? "1" = some 1 := by
  decide

namespace WorkerPy

theorem applyOne_cell_index (c : CellState) (v : Option CellSettings) :
    (applyOne c v).cell_index = c.cell_index := by
  cases v <;> rfl

theorem validate_cell_ok_bounds {state : List CellState} {p : Int × CellSettings}
    (h : (validate_cell state p).isOk = true) :
    1 ≤ p.1 ∧ p.1 ≤ (state.length : Int) := by
  by_cases hb : p.1 < 1 ∨ p.1 > (state.length : Int)
  · exfalso
    unfold validate_cell get_cell_state at h
    rw [if_pos hb] at h
    simp [Except.isOk, Except.toBool] at h
  · push_neg at hb
    omega

theorem pythonSet_inrange {α : Type} (xs : List α) (i : Int) (v : α)
    (h0 : 0 ≤ i) (hl : i < (xs.length : Int)) :
    pythonSet xs i v = .ok (xs.set i.toNat v) := by
  simp only [pythonSet]
  split_ifs <;> first | rfl | (exfalso; omega)

theorem pythonGet_at {α : Type} {xs : List α} {i : Nat} {x : α}
    (h : xs.get? i = some x) : pythonGet xs (i : Int) = .ok x := by
  simp only [pythonGet]
  rw [if_neg (show ¬ (i : Int) < 0 by omega)]
  rw [if_neg (show ¬ (i : Int) < 0 by omega)]
  rw [show ((i : Int)).toNat = i from rfl, h]

theorem get_cell_state_at {state : List CellState} {i : Nat} {c : CellState}
    (hc : state.get? i = some c) : get_cell_state state ((i : Int) + 1) = .ok c := by
  have hl : i < state.length := (List.get?_eq_some.mp hc).1
  unfold get_cell_state
  rw [if_neg (by omega :
    ¬ ((i : Int) + 1 < 1 ∨ (i : Int) + 1 > (state.length : Int)))]
  rw [show ((i : Int) + 1 - 1).toNat = i by omega, hc]

theorem set_enabled_at {cur : List CellState} {i : Nat} {cell : CellState}
    (hc : cur.get? i = some cell) (value : Bool) :
    set_enabled cur ((i : Int) + 1) value =
      .ok (cur.set i { cell with enabled := set_desired_inc_waiting cell.enabled value },
           Job.setEnabled ((i : Int) + 1) value) := by
  unfold set_enabled
  rw [get_cell_state_at hc]
  rw [show ((i : Int) + 1 - 1).toNat = i by omega, hc]

theorem validateLoop_ok {state : List CellState} (vs : List (Int × CellSettings))
    (hval : ∀ p ∈ vs, (validate_cell state p).isOk = true) :
    ∀ acc : List (Option CellSettings), acc.length = state.length →
      validateLoop state vs acc = .ok (assignAll acc vs) := by
  induction vs with
  | nil => intro acc _; rfl
  | cons p rest ih =>
    intro acc hlen
    have hp := hval p (by simp)
    obtain ⟨cell, hcell⟩ : ∃ cell, validate_cell state p = .ok cell := by
      cases hv : validate_cell state p with
      | error e => rw [hv] at hp; simp [Except.isOk, Except.toBool] at hp
      | ok c => exact ⟨c, rfl⟩
    obtain ⟨hb1, hb2⟩ := validate_cell_ok_bounds hp
    have hset := pythonSet_inrange acc (p.1 - 1) (some p.2) (by omega) (by omega)
    unfold validateLoop
    rw [hcell, hset]
    exact ih (fun q hq => hval q (List.mem_cons_of_mem _ hq))
      (acc.set (p.1 - 1).toNat (some p.2)) (by rw [List.length_set]; exact hlen)

theorem validateLoop_error {state : List CellState} (vs : List (Int × CellSettings))
    (hnval : ¬ ∀ p ∈ vs, (validate_cell state p).isOk = true) :
    ∀ acc : List (Option CellSettings), acc.length = state.length →
      ∃ e, validateLoop state vs acc = .error e := by
  induction vs with
  | nil => exact absurd (by simp) hnval
  | cons p rest ih =>
    intro acc hlen
    cases hv : validate_cell state p with
    | error e =>
      exact ⟨e, by unfold validateLoop; rw [hv]⟩
    | ok c =>
      have hp : (validate_cell state p).isOk = true := by rw [hv]; rfl
      obtain ⟨hb1, hb2⟩ := validate_cell_ok_bounds hp
      have hset := pythonSet_inrange acc (p.1 - 1) (some p.2) (by omega) (by omega)
      have hrest : ¬ ∀ q ∈ rest, (validate_cell state q).isOk = true := by
        intro hall
        refine hnval (fun q hq => ?_)
        rcases List.mem_cons.mp hq with rfl | hq2
        · exact hp
        · exact hall q hq2
      obtain ⟨e, he⟩ := ih hrest (acc.set (p.1 - 1).toNat (some p.2))
        (by rw [List.length_set]; exact hlen)
      refine ⟨e, ?_⟩
      unfold validateLoop
      rw [hv, hset]
      exact he

theorem assignAll_length (vs : List (Int × CellSettings)) :
    ∀ acc : List (Option CellSettings), (assignAll acc vs).length = acc.length := by
  induction vs with
  | nil => intro acc; rfl
  | cons p rest ih =>
    intro acc
    show (assignAll (acc.set (p.1 - 1).toNat (some p.2)) rest).length = acc.length
    rw [ih, List.length_set]

theorem assignAll_get? (vs : List (Int × CellSettings)) :
    ∀ (acc : List (Option CellSettings)) (i : Nat) (b : Option CellSettings),
      acc.get? i = some b → (∀ p ∈ vs, 1 ≤ p.1) →
      (assignAll acc vs).get? i = some (profileAtFrom b vs i) := by
  induction vs with
  | nil => intro acc i b hb _; exact hb
  | cons p rest ih =>
    intro acc i b hb hbd
    have h1 : 1 ≤ p.1 := hbd p (by simp)
    show (assignAll (acc.set (p.1 - 1).toNat (some p.2)) rest).get? i =
      some (profileAtFrom (if p.1 = (i : Int) + 1 then some p.2 else b) rest i)
    apply ih
    · by_cases he : p.1 = (i : Int) + 1
      · rw [if_pos he, show (p.1 - 1).toNat = i by omega]
        exact List.get?_set_eq_of_lt _ (List.get?_eq_some.mp hb).1
      · rw [if_neg he]
        rw [List.get?_set_ne _ _ (by omega : (p.1 - 1).toNat ≠ i)]
        exact hb
    · exact fun q hq => hbd q (List.mem_cons_of_mem _ hq)

theorem mutateLoop_ok (rest : List (Option CellSettings)) :
    ∀ (cur : List CellState) (i : Nat) (jobs : List Job),
      cur.length = i + rest.length →
      (∀ j c, cur.get? j = some c → c.cell_index = (j : Int) + 1) →
      ∃ out jl, mutateLoop cur i rest jobs = .ok (out, jl) ∧
        out.length = cur.length ∧
        (∀ j, j < i → out.get? j = cur.get? j) ∧
        (∀ x ∈ jobs, x ∈ jl) ∧
        (∀ k v, rest.get? k = some v → ∀ c, cur.get? (i + k) = some c →
          out.get? (i + k) = some (applyOne c v) ∧
          jobFor (((i + k : Nat) : Int) + 1) v ∈ jl) := by
  induction rest with
  | nil =>
    intro cur i jobs hlen hidx
    refine ⟨cur, jobs.reverse, rfl, rfl, fun j _ => rfl,
      fun x hx => List.mem_reverse.mpr hx, ?_⟩
    intro k v hk
    simp at hk
  | cons v rest ih =>
    intro cur i jobs hlen hidx
    simp only [List.length_cons] at hlen
    have hi : i < cur.length := by omega
    obtain ⟨cell, hcell⟩ : ∃ c, cur.get? i = some c := by
      cases hc : cur.get? i with
      | none => exact absurd (List.get?_eq_none.mp hc) (by omega)
      | some c => exact ⟨c, rfl⟩
    have hcix : cell.cell_index = (i : Int) + 1 := hidx i cell hcell
    have hget2 : (cur.set i (applyOne cell v)).get? i = some (applyOne cell v) :=
      List.get?_set_eq_of_lt _ hi
    have hlen2 : (cur.set i (applyOne cell v)).length = (i + 1) + rest.length := by
      rw [List.length_set]
      omega
    have hidx2 : ∀ j c, (cur.set i (applyOne cell v)).get? j = some c →
        c.cell_index = (j : Int) + 1 := by
      intro j c hj
      by_cases hji : j = i
      · subst hji
        rw [List.get?_set_eq_of_lt _ hi] at hj
        injection hj with hj
        rw [← hj, applyOne_cell_index]
        exact hcix
      · rw [List.get?_set_ne _ _ (fun h => hji h.symm)] at hj
        exact hidx j c hj
    obtain ⟨out, jl, hml, hlo, hpre, hjobs, hmain⟩ :=
      ih (cur.set i (applyOne cell v)) (i + 1) (jobFor ((i : Int) + 1) v :: jobs) hlen2 hidx2
    have hstep : mutateLoop cur i (v :: rest) jobs =
        mutateLoop (cur.set i (applyOne cell v)) (i + 1) rest
          (jobFor ((i : Int) + 1) v :: jobs) := by
      cases v with
      | none =>
        simp only [mutateLoop, hcell, hcix, set_enabled_at hcell false, applyOne, jobFor]
      | some st =>
        have hg : pythonGet (cur.set i (setDesiredAll cell st)) (i : Int) =
            .ok (setDesiredAll cell st) :=
          pythonGet_at (List.get?_set_eq_of_lt _ hi)
        simp only [mutateLoop, hcell, hcix,
          show (i : Int) + 1 - 1 = (i : Int) from by ring, hg, applyOne, jobFor]
    refine ⟨out, jl, by rw [hstep]; exact hml, ?_, ?_, ?_, ?_⟩
    · rw [hlo, List.length_set]
    · intro j hj
      rw [hpre j (by omega)]
      exact List.get?_set_ne _ _ (by omega)
    · exact fun x hx => hjobs x (List.mem_cons_of_mem _ hx)
    · intro k w hk c hc
      cases k with
      | zero =>
        rw [List.get?_cons_zero] at hk
        injection hk with hk
        subst hk
        rw [Nat.add_zero] at hc ⊢
        rw [hcell] at hc
        injection hc with hc
        subst hc
        constructor
        · rw [hpre i (by omega)]
          exact hget2
        · exact hjobs _ (List.mem_cons_self _ _)
      | succ k' =>
        rw [List.get?_cons_succ] at hk
        have heq : i + (k' + 1) = (i + 1) + k' := by omega
        rw [heq] at hc ⊢
        have hc2 : (cur.set i (applyOne cell v)).get? ((i + 1) + k') = some c := by
          rw [List.get?_set_ne _ _ (by omega)]
          exact hc
        exact hmain k' w hk c hc2

theorem get?_replicate_lt {α : Type} (a : α) {n m : Nat} (h : m < n) :
    (List.replicate n a).get? m = some a := by
  induction n generalizing m with
  | zero => omega
  | succ n ih =>
    cases m with
    | zero => rfl
    | succ m => exact ih (by omega)

end WorkerPy

/-- C6: profile apply is validate-first and atomic on failure.  If any entry
of the profile fails validation, `apply_settings_to_cells` raises with the
state unchanged and no submitted write task.  If every entry validates, the
call succeeds, and for each cell position: a cell with a profile entry has all
five desired values set (`pending` incremented on all five) and a compound
write task submitted for it, while a cell without an entry has only its
`enabled` parameter set to desired `false` with a single-parameter write task.
The hypothesis states the worker's own invariant that cell `j` (0-based)
carries 1-based `cell_index = j + 1`. -/
theorem C6_profile_apply_validate_first (state : List WorkerPy.CellState)
    (values : List (Int × WorkerPy.CellSettings))
    (hidx : ∀ j c, state.get? j = some c → c.cell_index = (j : Int) + 1) :
    (¬ (∀ p ∈ values, (WorkerPy.validate_cell state p).isOk = true) →
      ∃ e, WorkerPy.apply_settings_to_cells state values = .error (e, state, [])) ∧
    ((∀ p ∈ values, (WorkerPy.validate_cell state p).isOk = true) →
      ∃ out jobs, WorkerPy.apply_settings_to_cells state values = .ok (out, jobs) ∧
        out.length = state.length ∧
        ∀ j c, state.get? j = some c →
          (∀ st, WorkerPy.profileAt values j = some st →
            out.get? j = some (WorkerPy.setDesiredAll c st) ∧
            WorkerPy.Job.applyCellSettings ((j : Int) + 1) st ∈ jobs) ∧
          (WorkerPy.profileAt values j = none →
            out.get? j = some
              { c with enabled := set_desired_inc_waiting c.enabled false } ∧
            WorkerPy.Job.setEnabled ((j : Int) + 1) false ∈ jobs)) := by
  constructor
  · intro hnval
    obtain ⟨e, he⟩ := WorkerPy.validateLoop_error values hnval
      (List.replicate state.length none) (by simp)
    refine ⟨e, ?_⟩
    unfold WorkerPy.apply_settings_to_cells
    rw [he]
  · intro hval
    have hv := WorkerPy.validateLoop_ok values hval (List.replicate state.length none)
      (by simp)
    have hbd : ∀ p ∈ values, 1 ≤ p.1 :=
      fun p hp => (WorkerPy.validate_cell_ok_bounds (hval p hp)).1
    have hlenA : (WorkerPy.assignAll (List.replicate state.length none) values).length =
        state.length := by
      rw [WorkerPy.assignAll_length]
      simp
    obtain ⟨out, jl, hml, hlo, _, _, hmain⟩ :=
      WorkerPy.mutateLoop_ok
        (WorkerPy.assignAll (List.replicate state.length none) values) state 0 []
        (by omega) hidx
    refine ⟨out, jl, ?_, hlo, ?_⟩
    · unfold WorkerPy.apply_settings_to_cells
      rw [hv]
      exact hml
    · intro j c hc
      have hj : j < state.length := (List.get?_eq_some.mp hc).1
      have hrep : (List.replicate state.length (none : Option WorkerPy.CellSettings)).get? j =
          some none := WorkerPy.get?_replicate_lt _ hj
      have hchar := WorkerPy.assignAll_get? values
        (List.replicate state.length none) j none hrep hbd
      have hc0 : state.get? (0 + j) = some c := by rw [Nat.zero_add]; exact hc
      have h0 := hmain j (WorkerPy.profileAt values j) (by rw [hchar]; rfl) c hc0
      rw [Nat.zero_add] at h0
      constructor
      · intro st hst
        rw [hst] at h0
        exact h0
      · intro hnone
        rw [hnone] at h0
        exact h0

/-- Witness for C6 on a two-cell device with a profile entry for cell 1
only. -/
theorem C6_profile_apply_validate_first_witness :
    (¬ (∀ p ∈ [((1 : Int), c6_settings)],
        (WorkerPy.validate_cell [c6_cell1, c6_cell2] p).isOk = true) →
      ∃ e, WorkerPy.apply_settings_to_cells [c6_cell1, c6_cell2] [(1, c6_settings)] =
        .error (e, [c6_cell1, c6_cell2], [])) ∧
    ((∀ p ∈ [((1 : Int), c6_settings)],
        (WorkerPy.validate_cell [c6_cell1, c6_cell2] p).isOk = true) →
      ∃ out jobs,
        WorkerPy.apply_settings_to_cells [c6_cell1, c6_cell2] [(1, c6_settings)] =
          .ok (out, jobs) ∧
        out.length = ([c6_cell1, c6_cell2] : List WorkerPy.CellState).length ∧
        ∀ j c, ([c6_cell1, c6_cell2] : List WorkerPy.CellState).get? j = some c →
          (∀ st, WorkerPy.profileAt [(1, c6_settings)] j = some st →
            out.get? j = some (WorkerPy.setDesiredAll c st) ∧
            WorkerPy.Job.applyCellSettings ((j : Int) + 1) st ∈ jobs) ∧
          (WorkerPy.profileAt [(1, c6_settings)] j = none →
            out.get? j = some
              { c with enabled := set_desired_inc_waiting c.enabled false } ∧
            WorkerPy.Job.setEnabled ((j : Int) + 1) false ∈ jobs)) :=
  C6_profile_apply_validate_first [c6_cell1, c6_cell2] [(1, c6_settings)] (by
    intro j c hc
    cases j with
    | zero =>
      injection hc with h
      rw [← h]
      decide
    | succ j' =>
      cases j' with
      | zero =>
        injection hc with h
        rw [← h]
        decide
      | succ j'' => simp [List.get?] at hc)

/-- Witness for C10 at the malformed input `"abc"`. -/
theorem C10_decode_response_malformed_witness :
    ∃ e, decode_response "abc" = .error e ∧
      ("abc" = "" → e = PyErr.indexError) ∧
      ("abc" ≠ "" → e = PyErr.valueError "Invalid response format") :=
  C10_decode_response_malformed "abc" (by decide)

end Msvc
